import Mathlib

/-!
Verification development for the voice-to-text-daease repository.

The repository is a thin orchestration layer: a counter-indexed transcription
ledger persisted as one JSON document (`transcriber.py`), a Streamlit workflow
that saves web-speech transcripts into the ledger (`transcriber.py: main`), a
report requestor wrapping a generative-model call
(`medical_report_generator.py`), an export writer (text / JSON / PDF), and a
PDF assembler (`transcriber.py: create_pdf_report`).

This file gives a shallow embedding of those parts, translated from the Python
source, and proves or refutes the specification claims about them.

Modelling conventions:
* A JSON record written into the ledger is an association list
  `List (String × JVal)` in insertion order, mirroring a Python dict literal.
* The backing file `transcriptions/all_transcriptions.json` is modelled as an
  `Option LedgerDoc`: `none` when the file does not exist.
* Effectful inputs (the current wall-clock timestamp, the external
  generative-model call) are passed as explicit arguments.
-/

set_option autoImplicit false

namespace DaEase

/-- A JSON value as this codebase writes and reads them: strings, natural
numbers, and arrays of strings (the only array shape the repository uses,
`session_transcript`). -/
inductive JVal where
  | s : String → JVal
  | n : Nat → JVal
  | arr : List String → JVal
deriving DecidableEq, Repr

/-- Python dict lookup (`d[k]` / `d.get(k)`) on an association list held in
insertion order: the first binding of the key, if any. -/
def dictGet {α : Type} (k : String) : List (String × α) → Option α
  | [] => none
  | p :: d => if p.1 = k then some p.2 else dictGet k d

/-- Python dict assignment `d[k] = v`: replace the binding of `k` in place if
present, otherwise append a new binding at the end (Python dicts preserve
insertion order). -/
def dictInsert {α : Type} (k : String) (v : α) : List (String × α) → List (String × α)
  | [] => [(k, v)]
  | p :: d => if p.1 = k then (k, v) :: d else p :: dictInsert k v d

/-- The ASCII whitespace characters recognised by Python `str.split()` and
`str.strip()`. -/
def pyIsSpace (c : Char) : Bool :=
  c = ' ' || c = '\t' || c = '\n' || c = '\r' || c = '\x0b' || c = '\x0c'

/-- Python `s.split()` with no separator: split on whitespace runs, discarding
empty fragments. -/
def pySplit (s : String) : List String :=
  (s.split pyIsSpace).filter (fun w => w ≠ "")

/-- Python `s.strip()`: remove leading and trailing whitespace. -/
def pyStrip (s : String) : String :=
  ⟨((s.data.dropWhile pyIsSpace).reverse.dropWhile pyIsSpace).reverse⟩

/-- The persisted ledger document `transcriptions/all_transcriptions.json`:
`{counter, transcriptions, last_updated}` (`transcriber.py`, written at lines
78–85). Each transcription record is kept as a JSON object in insertion
order. -/
structure LedgerDoc where
  counter : Nat
  transcriptions : List (String × List (String × JVal))
  last_updated : String
deriving DecidableEq, Repr

/-- `load_transcription_counter` (`transcriber.py` lines 47–53): read the
backing document if the file exists, returning
`(data.get('counter', 0), data.get('transcriptions', {}))`; return `(0, {})`
when the file is absent. -/
def load_transcription_counter :
    Option LedgerDoc → Nat × List (String × List (String × JVal))
  | some data => (data.counter, data.transcriptions)
  | none => (0, [])

/-- The `new_transcription` dict literal built by `save_transcription`
(`transcriber.py` lines 66–72): timestamp, the transcript as one string, the
whitespace-token word count, and the language code. -/
def new_transcription (timestamp transcript_text language_code : String) :
    List (String × JVal) :=
  [("timestamp", JVal.s timestamp),
   ("transcript", JVal.s transcript_text),
   ("word_count", JVal.n (pySplit transcript_text).length),
   ("language", JVal.s language_code)]

/-- `save_transcription(transcript_text, language_code)` (`transcriber.py`
lines 55–87): load the existing data, increment the counter, build the new
record, store it under `str(counter)`, write the whole document back, and
return the counter. The wall-clock timestamp is passed explicitly. The
function performs no check on `transcript_text`. -/
def save_transcription (timestamp transcript_text language_code : String)
    (fs : Option LedgerDoc) : Option LedgerDoc × Nat :=
  let loaded := load_transcription_counter fs
  let counter := loaded.1 + 1
  let transcriptions :=
    dictInsert (toString counter)
      (new_transcription timestamp transcript_text language_code) loaded.2
  (some ⟨counter, transcriptions, timestamp⟩, counter)

/-! ## Report requestor (`medical_report_generator.py`) -/

def analyze_transcript_prompt_head : String :=
  "
        You are an expert medical assistant. Analyze the following medical conversation transcript and generate a comprehensive, structured medical report. 

        **TRANSCRIPT:**
        "

def analyze_transcript_prompt_tail : String :=
  "

        **INSTRUCTIONS:**
        Generate a detailed medical report with the following sections:

        ## Patient Information
        - Extract any mentioned patient demographics, age, gender, etc.
        - If not explicitly mentioned, note as \"Not specified in transcript\"

        ## Chief Complaint
        - Primary reason for the visit
        - Patient's main concerns in their own words

        ## History of Present Illness
        - Detailed description of current symptoms
        - Timeline and progression
        - Associated symptoms
        - Aggravating and relieving factors

        ## Past Medical History
        - Previous medical conditions
        - Previous surgeries or hospitalizations
        - Current medications (if mentioned)

        ## Physical Examination
        - Any examination findings mentioned
        - Vital signs if discussed

        ## Assessment
        - Clinical impression
        - Differential diagnoses
        - Severity assessment

        ## Plan
        - Diagnostic tests recommended
        - Treatment recommendations
        - Follow-up instructions
        - Patient education points

        ## Additional Notes
        - Any other relevant information
        - Recommendations for further evaluation

        **FORMAT REQUIREMENTS:**
        - Use clear, professional medical language
        - Be thorough but concise
        - If information is not available in the transcript, clearly state \"Not mentioned in transcript\"
        - Maintain patient confidentiality standards
        - Use bullet points for clarity where appropriate
        "

def generate_ai_assessment_prompt_head : String :=
  "
        You are an advanced AI medical diagnostic assistant. Analyze the following medical conversation transcript and provide a comprehensive medical assessment with disease analysis, severity evaluation, and next steps.

        **TRANSCRIPT:**
        "

def generate_ai_assessment_prompt_tail : String :=
  "

        **INSTRUCTIONS:**
        Provide a detailed AI medical assessment with the following sections:

        ## Symptom Analysis
        - List and categorize all symptoms mentioned
        - Identify symptom patterns and relationships
        - Note symptom severity and duration

        ## Differential Diagnosis
        - List possible conditions based on symptoms
        - Rank by likelihood with brief reasoning
        - Include both common and serious conditions to consider

        ## Disease Severity Assessment
        - Evaluate urgency level (Low/Moderate/High/Critical)
        - Identify any red flag symptoms
        - Risk stratification

        ## Recommended Next Steps
        - Immediate actions needed
        - Diagnostic tests to consider
        - Specialist referrals if indicated

        ## Suggested Investigations
        - Laboratory tests
        - Imaging studies
        - Other diagnostic procedures
        - Priority order of investigations

        ## Warning Signs to Monitor
        - Symptoms that would require immediate medical attention
        - When to return for follow-up
        - Emergency situations to watch for

        ## Treatment Considerations
        - General treatment approaches
        - Lifestyle modifications
        - Medication considerations (general categories)

        ## Patient Education Priorities
        - Key points to explain to patient
        - Self-care instructions
        - Prevention strategies

        ## AI Confidence Assessment
        - Confidence level in assessment (High/Medium/Low)
        - Factors affecting confidence
        - Limitations of this analysis

        **IMPORTANT NOTES:**
        - This is an AI assessment for educational/reference purposes only
        - Always emphasize the need for professional medical evaluation
        - Do not provide specific medication dosages or definitive diagnoses
        - Highlight when immediate medical attention is needed
        - Be clear about limitations and uncertainties

        **FORMAT:**
        Use clear headings, bullet points, and professional medical language.
        "

/-- `MedicalReportGenerator.analyze_transcript` (`medical_report_generator.py`
lines 37–106): build the fixed prompt around the transcript, issue one
blocking call to the external generative model, and return `response.text`;
if the call raises, return the error message in-band as the result string.
The external call is passed explicitly as a function returning either the
response text or the exception message. -/
def analyze_transcript (generate_content : String → Except String String)
    (transcript : String) : String :=
  match generate_content
      (analyze_transcript_prompt_head ++ transcript
        ++ analyze_transcript_prompt_tail) with
  | Except.ok text => text
  | Except.error e => "Error generating medical report: " ++ e

/-- `MedicalReportGenerator.generate_ai_assessment`
(`medical_report_generator.py` lines 108–188): same shape as
`analyze_transcript` with the assessment prompt and its own in-band error
message. -/
def generate_ai_assessment (generate_content : String → Except String String)
    (transcript : String) : String :=
  match generate_content
      (generate_ai_assessment_prompt_head ++ transcript
        ++ generate_ai_assessment_prompt_tail) with
  | Except.ok text => text
  | Except.error e => "Error generating AI assessment: " ++ e

/-- `MedicalReportGenerator.save_report` (`medical_report_generator.py` lines
395–417): choose `medical_report_<timestamp>.txt` when no output path is
given, and write exactly the report string. The result is the pair
(path, file contents written). -/
def save_report (now : String) (report : String) (output_path : Option String) :
    String × String :=
  let path :=
    match output_path with
    | some p => p
    | none => "medical_report_" ++ now ++ ".txt"
  (path, report)

/-- The JSON-mode export envelope `report_data` built in
`medical_report_generator.py: main` (lines 513–518). -/
def report_data (now transcript report : String) : List (String × JVal) :=
  [("timestamp", JVal.s now),
   ("original_transcript", JVal.s transcript),
   ("generated_report", JVal.s report),
   ("model_used", JVal.s "gemini-2.0-flash-exp")]

/-! ## Reading the ledger back (`load_transcript_from_file`) -/

/-- `max(transcriptions.keys(), key=int)` (`medical_report_generator.py` line
374): the key with the largest integer value, the first such key on ties.
The ledger keys written by this repository are decimal numerals, for which
`String.toNat?` agrees with Python `int`. -/
def maxIntKey (ks : List String) : Option String :=
  ks.foldl
    (fun acc k =>
      match acc with
      | none => some k
      | some m => if (k.toNat?.getD 0) > (m.toNat?.getD 0) then some k else some m)
    none

/-- `record.get('session_transcript', [])` on a ledger record: the array bound
to the key, or `[]` when the key is absent. Records written by
`save_transcription` never carry this key. (A non-array value under the key
would make the Python `'\n'.join` raise; no writer of this repository
produces one.) -/
def getStrList (rec : List (String × JVal)) (k : String) : List String :=
  match dictGet k rec with
  | some (JVal.arr l) => l
  | _ => []

/-- `MedicalReportGenerator.load_transcript_from_file`
(`medical_report_generator.py` lines 353–393), restricted to the branch that
reads this ledger document shape (lines 368–376): pick the latest record by
integer key and join its `session_transcript` list with newlines. `none`
where the Python function falls through and returns `None`. -/
def load_transcript_from_file (doc : LedgerDoc) : Option String :=
  if doc.transcriptions ≠ [] then
    match maxIntKey (doc.transcriptions.map (fun p => p.1)) with
    | some latest_key =>
        match dictGet latest_key doc.transcriptions with
        | some latest =>
            some (String.intercalate "\n" (getStrList latest "session_transcript"))
        | none => none
    | none => none
  else none

/-! ## The save workflow in `transcriber.py: main` -/

/-- The Streamlit session fields the save workflow touches
(`transcriber.py: main`, initialised at lines 775–782 to `""` and `None`). -/
structure SessionState where
  current_transcript : String
  last_transcription_id : Option Nat
deriving DecidableEq, Repr

/-- The transcript-processing fragment of `main` (`transcriber.py` lines
843–865): with `transcript_from_js` the resolved query parameter, the
workflow calls `save_transcription(transcript_from_js.strip(),
"web-speech-api")` only under
`if transcript_from_js and transcript_from_js.strip():`; otherwise it touches
neither the ledger nor the session state. -/
def process_web_speech_transcript (now : String)
    (transcript_from_js : Option String) (fs : Option LedgerDoc)
    (sess : SessionState) : Option LedgerDoc × SessionState :=
  match transcript_from_js with
  | none => (fs, sess)
  | some t =>
      if t ≠ "" ∧ pyStrip t ≠ "" then
        let r := save_transcription now (pyStrip t) "web-speech-api" fs
        (r.1,
         { current_transcript := pyStrip t, last_transcription_id := some r.2 })
      else (fs, sess)

/-! ## PDF assembly (`transcriber.py: create_pdf_report`) -/

/-- Paragraph styles `create_pdf_report` uses: the custom title style built at
lines 192–198 and the sample-stylesheet styles. -/
inductive PStyle where
  | customTitle
  | normal
  | heading2
  | heading3
deriving DecidableEq, Repr

/-- A reportlab story element as `create_pdf_report` appends them: a
`Paragraph(text, style)` or a `Spacer(w, h)`. -/
inductive StoryElem where
  | par : String → PStyle → StoryElem
  | spacer : Nat → Nat → StoryElem
deriving DecidableEq, Repr

/-- `create_pdf_report(report_text, transcript_text, transcription_id)`
(`transcriber.py` lines 184–250), as the list of story elements handed to
`doc.build`: title block, generated-on line, the MEDICAL REPORT section (only
when `report_text` is truthy) whose non-blank lines are rendered by prefix —
`##` stripped into a Heading3, `-` kept verbatim, anything else kept verbatim
— each followed by a small spacer, then the ORIGINAL TRANSCRIPT section. -/
def create_pdf_report (now : String) (report_text transcript_text : String)
    (transcription_id : Option Nat) : List StoryElem :=
  let title :=
    match transcription_id with
    | some n =>
        if n ≠ 0 then "Medical Report - Transcription #" ++ toString n
        else "Medical Report"
    | none => "Medical Report"
  [StoryElem.par title PStyle.customTitle, StoryElem.spacer 1 20,
   StoryElem.par ("Generated on: " ++ now) PStyle.normal, StoryElem.spacer 1 20]
  ++ (if report_text ≠ "" then
        [StoryElem.par "MEDICAL REPORT" PStyle.heading2, StoryElem.spacer 1 12]
        ++ (report_text.splitOn "\n").flatMap (fun para =>
              if pyStrip para ≠ "" then
                [(if para.startsWith "##" then
                    StoryElem.par (pyStrip (para.replace "##" "")) PStyle.heading3
                  else if para.startsWith "-" then
                    StoryElem.par para PStyle.normal
                  else
                    StoryElem.par para PStyle.normal),
                  StoryElem.spacer 1 6]
              else [])
      else [])
  ++ [StoryElem.spacer 1 30,
      StoryElem.par "ORIGINAL TRANSCRIPT" PStyle.heading2, StoryElem.spacer 1 12]
  ++ (if transcript_text ≠ "" then
        (transcript_text.splitOn "\n").flatMap (fun para =>
          if pyStrip para ≠ "" then
            [StoryElem.par para PStyle.normal, StoryElem.spacer 1 6]
          else [])
      else [])

/-- The line classification exactly as the specification words it: a line
starting with `##` becomes a heading with the `##` stripped, a line starting
with `-` becomes a bullet, every other line a body paragraph. In the rendered
story a bullet is a body-styled paragraph that keeps its leading dash. -/
def claim_classify_line (para : String) : StoryElem :=
  if para.startsWith "##" then
    StoryElem.par (pyStrip (para.replace "##" "")) PStyle.heading3
  else if para.startsWith "-" then StoryElem.par para PStyle.normal
  else StoryElem.par para PStyle.normal

/-- The non-blank lines of a report body, in their original order. -/
def nonblank_lines (s : String) : List String :=
  (s.splitOn "\n").filter (fun para => pyStrip para ≠ "")

/-- The fixed story elements `create_pdf_report` emits before the report
section: title block and generated-on line. -/
def pdf_header (now : String) (transcription_id : Option Nat) : List StoryElem :=
  let title :=
    match transcription_id with
    | some n =>
        if n ≠ 0 then "Medical Report - Transcription #" ++ toString n
        else "Medical Report"
    | none => "Medical Report"
  [StoryElem.par title PStyle.customTitle, StoryElem.spacer 1 20,
   StoryElem.par ("Generated on: " ++ now) PStyle.normal, StoryElem.spacer 1 20]

/-- The story elements `create_pdf_report` emits after the report section:
the ORIGINAL TRANSCRIPT section. -/
def pdf_transcript_tail (transcript_text : String) : List StoryElem :=
  [StoryElem.spacer 1 30,
   StoryElem.par "ORIGINAL TRANSCRIPT" PStyle.heading2, StoryElem.spacer 1 12]
  ++ (if transcript_text ≠ "" then
        (transcript_text.splitOn "\n").flatMap (fun para =>
          if pyStrip para ≠ "" then
            [StoryElem.par para PStyle.normal, StoryElem.spacer 1 6]
          else [])
      else [])

/-! ## The spec-side ledger record and `patch_duration`

`patch_duration` is described by the specification (section 4.1) but its
definition is not among the source files; only consumers of the
`duration_seconds` field it writes appear there
(`generate_report_for_transcription_40.py`, `load_transcript_from_file`).
The record shape and the operation are therefore modelled from the spec. -/

/-- Modelled from the spec: the persisted `TranscriptionRecord` of sections 3
and 6 — `{timestamp, session_transcript: [string,...], word_count: int,
duration_seconds: float|null, language: string}`. The numeric duration is
modelled as a rational. -/
structure SpecTranscriptionRecord where
  timestamp : String
  session_transcript : List String
  word_count : Nat
  duration_seconds : Option ℚ
  language : String
deriving DecidableEq, Repr

/-- Modelled from the spec: the ledger document holding spec-shaped records,
`{counter, transcriptions, last_updated}`. -/
structure SpecLedgerDoc where
  counter : Nat
  transcriptions : List (String × SpecTranscriptionRecord)
  last_updated : String
deriving DecidableEq, Repr

/-- Modelled from the spec: `load() -> (counter, records)` over spec-shaped
records — reads the backing document if present, `(0, {})` if absent. -/
def spec_load :
    Option SpecLedgerDoc → Nat × List (String × SpecTranscriptionRecord)
  | some data => (data.counter, data.transcriptions)
  | none => (0, [])

/-- Modelled from the spec: `patch_duration(id, duration_seconds)` — re-reads
the document, updates the one field on the one record stored under `str(id)`,
and rewrites the whole document. -/
def patch_duration (id : Nat) (d : ℚ) :
    Option SpecLedgerDoc → Option SpecLedgerDoc
  | none => none
  | some doc =>
      some { doc with
        transcriptions := doc.transcriptions.map (fun p =>
          if p.1 = toString id then
            (p.1, { p.2 with duration_seconds := some d })
          else p) }

/-! ## Association-list lemmas -/

theorem dictGet_dictInsert_self {α : Type} (k : String) (v : α)
    (d : List (String × α)) : dictGet k (dictInsert k v d) = some v := by
  induction d with
  | nil => simp [dictInsert, dictGet]
  | cons p d ih =>
      by_cases h : p.1 = k
      · simp [dictInsert, dictGet, h]
      · simp [dictInsert, dictGet, h, ih]

theorem dictInsert_of_get_none {α : Type} (k : String) (v : α)
    (d : List (String × α)) (h : dictGet k d = none) :
    dictInsert k v d = d ++ [(k, v)] := by
  induction d with
  | nil => rfl
  | cons p d ih =>
      by_cases hp : p.1 = k
      · simp [dictGet, hp] at h
      · simp [dictGet, hp] at h
        simp [dictInsert, hp, ih h]

theorem dictGet_map_update_self {α : Type} (k : String) (g : α → α)
    (d : List (String × α)) :
    dictGet k (d.map (fun p => if p.1 = k then (p.1, g p.2) else p))
      = (dictGet k d).map g := by
  induction d with
  | nil => rfl
  | cons p d ih =>
      by_cases hp : p.1 = k
      · simp [dictGet, hp]
      · simp [dictGet, hp, ih]

theorem dictGet_map_update_ne {α : Type} (k k' : String) (g : α → α)
    (d : List (String × α)) (h : k' ≠ k) :
    dictGet k' (d.map (fun p => if p.1 = k then (p.1, g p.2) else p))
      = dictGet k' d := by
  induction d with
  | nil => rfl
  | cons p d ih =>
      by_cases hp : p.1 = k
      · have hk' : ¬p.1 = k' := by rw [hp]; exact Ne.symm h
        simp [dictGet, hp, hk', Ne.symm h, ih]
      · by_cases hp' : p.1 = k'
        · simp [dictGet, hp, hp', h]
        · simp [dictGet, hp, hp', ih]

/-! ## Sequences of ledger appends -/

/-- Drives a sequence of `save_transcription` calls with a shared timestamp
and language, returning the final document and the returned ids in call
order. -/
def save_many (now lang : String) (ts : List String) (fs : Option LedgerDoc) :
    Option LedgerDoc × List Nat :=
  match ts with
  | [] => (fs, [])
  | t :: rest =>
      let r := save_transcription now t lang fs
      let r2 := save_many now lang rest r.1
      (r2.1, r.2 :: r2.2)

theorem save_many_ids (now lang : String) (ts : List String)
    (fs : Option LedgerDoc) :
    (save_many now lang ts fs).2
      = List.range' ((load_transcription_counter fs).1 + 1) ts.length := by
  induction ts generalizing fs with
  | nil => simp [save_many]
  | cons t rest ih =>
      simp only [save_many, List.length_cons, List.range'_succ]
      refine congrArg (_ :: ·) ?_
      rw [ih]
      rfl

/-! ## Claim theorems -/

/-- C1, counterexample: calling `save_transcription` with an empty transcript
from an absent backing document returns the id 1, sets the persisted counter
to 1, and leaves a persisted record — refuting "persists nothing and returns
no id". -/
theorem C1_counterexample :
    (save_transcription "2024-01-01 10:00:00" "" "en-US" none).2 = 1 ∧
    (load_transcription_counter
        (save_transcription "2024-01-01 10:00:00" "" "en-US" none).1).1 = 1 ∧
    dictGet "1"
        (load_transcription_counter
          (save_transcription "2024-01-01 10:00:00" "" "en-US" none).1).2
      = some (new_transcription "2024-01-01 10:00:00" "" "en-US") := by
  refine ⟨rfl, rfl, rfl⟩

/-- C1, amended: `save_transcription` performs no emptiness check — for every
transcript, including the empty and the all-whitespace ones, it increments
the persisted counter, persists a record under the stringified new counter,
and returns the new counter. (The empty-input guard lives in the caller,
`main`, which only invokes `save_transcription` on a transcript whose strip
is non-empty.) -/
theorem C1_amended_always_persists (now t lang : String)
    (fs : Option LedgerDoc) :
    (save_transcription now t lang fs).2
      = (load_transcription_counter fs).1 + 1 ∧
    (load_transcription_counter (save_transcription now t lang fs).1).1
      = (load_transcription_counter fs).1 + 1 ∧
    dictGet (toString ((load_transcription_counter fs).1 + 1))
        (load_transcription_counter (save_transcription now t lang fs).1).2
      = some (new_transcription now t lang) := by
  exact ⟨rfl, rfl, dictGet_dictInsert_self _ _ _⟩

/-- C2: starting from an absent-or-empty backing document (persisted counter
0), a sequence of `save_transcription` calls with non-empty transcripts
returns exactly the ids 1, 2, ..., n in order. -/
theorem C2_ids_one_two_three (now lang : String) (ts : List String)
    (fs : Option LedgerDoc)
    (h0 : (load_transcription_counter fs).1 = 0)
    (_hne : ∀ t ∈ ts, pyStrip t ≠ "") :
    (save_many now lang ts fs).2 = List.range' 1 ts.length := by
  have h := save_many_ids now lang ts fs
  rw [h0] at h
  simpa using h

theorem C2_ids_one_two_three_witness :
    (save_many "2024-01-01 10:00:00" "en-US" ["a", "b", "c"] none).2
      = List.range' 1 3 :=
  C2_ids_one_two_three "2024-01-01 10:00:00" "en-US" ["a", "b", "c"] none rfl
    (by decide)

/-- C3: the record `save_transcription` persists does not have the shape the
external-interface section promises. Evaluated at the failing input
(`"hello world"`, `"en-US"`, absent document): the stored record binds the
key `transcript` to one string, binds no `session_transcript` key and no
`duration_seconds` key — so the repository's own reader
`load_transcript_from_file` reads the latest transcript of the written
document back as the empty string. -/
theorem C3_record_shape_mismatch :
    dictGet "1"
        (load_transcription_counter
          (save_transcription "2024-01-01 10:00:00" "hello world" "en-US"
            none).1).2
      = some (new_transcription "2024-01-01 10:00:00" "hello world" "en-US") ∧
    dictGet "transcript"
        (new_transcription "2024-01-01 10:00:00" "hello world" "en-US")
      = some (JVal.s "hello world") ∧
    dictGet "session_transcript"
        (new_transcription "2024-01-01 10:00:00" "hello world" "en-US")
      = none ∧
    dictGet "duration_seconds"
        (new_transcription "2024-01-01 10:00:00" "hello world" "en-US")
      = none ∧
    (match (save_transcription "2024-01-01 10:00:00" "hello world" "en-US"
        none).1 with
     | some doc => load_transcript_from_file doc
     | none => none) = some "" := by
  refine ⟨rfl, rfl, rfl, rfl, ?_⟩
  decide

/-- C4: `load_transcription_counter` on a missing backing file returns
`(0, {})`. -/
theorem C4_load_missing_file : load_transcription_counter none = (0, []) := rfl

/-- C5: after `patch_duration(id, d)` on a ledger state holding a record under
`str(id)`, re-loading yields that record with `duration_seconds = d` and all
its other fields intact, every other record unchanged, and the counter
unchanged. (`patch_duration` is modelled from the spec; it is absent from the
source files.) -/
theorem C5_patch_duration_frame (fs : Option SpecLedgerDoc) (id : Nat) (d : ℚ)
    (rec : SpecTranscriptionRecord)
    (h : dictGet (toString id) (spec_load fs).2 = some rec) :
    dictGet (toString id) (spec_load (patch_duration id d fs)).2
      = some { rec with duration_seconds := some d } ∧
    (∀ k, k ≠ toString id →
      dictGet k (spec_load (patch_duration id d fs)).2
        = dictGet k (spec_load fs).2) ∧
    (spec_load (patch_duration id d fs)).1 = (spec_load fs).1 := by
  cases fs with
  | none => simp [spec_load, dictGet] at h
  | some doc =>
      refine ⟨?_, ?_, rfl⟩
      · have hm := dictGet_map_update_self (toString id)
          (fun r => { r with duration_seconds := some d }) doc.transcriptions
        simp only [spec_load, patch_duration] at h ⊢
        rw [hm, h]
        rfl
      · intro k hk
        exact dictGet_map_update_ne (toString id) k
          (fun r => { r with duration_seconds := some d }) doc.transcriptions hk

/-- Concrete spec-shaped record used by the C5 witness. -/
def specRecW : SpecTranscriptionRecord :=
  ⟨"2024-01-01 10:00:00", ["hello doctor"], 2, none, "en-US"⟩

/-- Concrete spec-shaped document used by the C5 witness. -/
def specDocW : SpecLedgerDoc :=
  ⟨5, [("4", specRecW), ("5", specRecW)], "2024-01-01 10:00:00"⟩

theorem C5_patch_duration_frame_witness :
    dictGet (toString 5) (spec_load (patch_duration 5 3 (some specDocW))).2
      = some { specRecW with duration_seconds := some 3 } ∧
    (∀ k, k ≠ toString 5 →
      dictGet k (spec_load (patch_duration 5 3 (some specDocW))).2
        = dictGet k (spec_load (some specDocW)).2) ∧
    (spec_load (patch_duration 5 3 (some specDocW))).1
      = (spec_load (some specDocW)).1 :=
  C5_patch_duration_frame (some specDocW) 5 3 specRecW (by decide)

/-- C6: when the transcript handed back from capture is absent, empty, or
all-whitespace, the workflow fragment of `main` never calls
`save_transcription`: the backing document (hence the persisted counter) and
the session state — including `last_transcription_id`, which stays `none` —
are returned unchanged. -/
theorem C6_empty_capture_no_append (now : String)
    (transcript_from_js : Option String) (fs : Option LedgerDoc)
    (sess : SessionState)
    (h : transcript_from_js = none ∨
         ∃ s, transcript_from_js = some s ∧ pyStrip s = "") :
    process_web_speech_transcript now transcript_from_js fs sess
      = (fs, sess) := by
  rcases h with h | ⟨s, hts, hs⟩
  · rw [h]; rfl
  · subst hts
    simp [process_web_speech_transcript, hs]

theorem C6_empty_capture_no_append_witness :
    process_web_speech_transcript "2024-01-01 10:00:00" (some "   ") none
      ⟨"", none⟩ = (none, ⟨"", none⟩) :=
  C6_empty_capture_no_append "2024-01-01 10:00:00" (some "   ") none
    ⟨"", none⟩ (Or.inr ⟨"   ", rfl, by decide⟩)

/-- C7: for every transcript and every behaviour of the external model call,
`analyze_transcript` and `generate_ai_assessment` return a result string in
every case — the raw response text when the call succeeds, and the in-band
error message standing in for the report when it fails. -/
theorem C7_requestor_in_band_errors
    (generate_content : String → Except String String) (transcript : String) :
    ((∃ r, generate_content (analyze_transcript_prompt_head ++ transcript
            ++ analyze_transcript_prompt_tail) = Except.ok r ∧
        analyze_transcript generate_content transcript = r) ∨
     (∃ e, generate_content (analyze_transcript_prompt_head ++ transcript
            ++ analyze_transcript_prompt_tail) = Except.error e ∧
        analyze_transcript generate_content transcript
          = "Error generating medical report: " ++ e)) ∧
    ((∃ r, generate_content (generate_ai_assessment_prompt_head ++ transcript
            ++ generate_ai_assessment_prompt_tail) = Except.ok r ∧
        generate_ai_assessment generate_content transcript = r) ∨
     (∃ e, generate_content (generate_ai_assessment_prompt_head ++ transcript
            ++ generate_ai_assessment_prompt_tail) = Except.error e ∧
        generate_ai_assessment generate_content transcript
          = "Error generating AI assessment: " ++ e)) := by
  constructor
  · cases h : generate_content (analyze_transcript_prompt_head ++ transcript
        ++ analyze_transcript_prompt_tail) with
    | ok r => exact Or.inl ⟨r, rfl, by simp [analyze_transcript, h]⟩
    | error e => exact Or.inr ⟨e, rfl, by simp [analyze_transcript, h]⟩
  · cases h : generate_content (generate_ai_assessment_prompt_head ++ transcript
        ++ generate_ai_assessment_prompt_tail) with
    | ok r => exact Or.inl ⟨r, rfl, by simp [generate_ai_assessment, h]⟩
    | error e => exact Or.inr ⟨e, rfl, by simp [generate_ai_assessment, h]⟩

/-- C8: the text-mode export writes exactly the report body, byte for byte,
and the JSON-mode envelope binds the exact original transcript string to its
`original_transcript` key. -/
theorem C8_export_text_and_json (now report transcript : String)
    (output_path : Option String) :
    (save_report now report output_path).2 = report ∧
    dictGet "original_transcript" (report_data now transcript report)
      = some (JVal.s transcript) := by
  exact ⟨rfl, rfl⟩

theorem flatMap_filter {α β : Type} (p : α → Bool) (f : α → List β)
    (l : List α) :
    (l.filter p).flatMap f
      = l.flatMap (fun a => if p a then f a else []) := by
  induction l with
  | nil => rfl
  | cons a l ih =>
      by_cases h : p a <;> simp [List.filter_cons, h, ih]

/-- C9: for every non-empty report body, the story `create_pdf_report` builds
is the fixed header, the MEDICAL REPORT section heading, then exactly the
non-blank report lines in their original order — each classified by its
prefix per `claim_classify_line` and followed by its spacer — and finally the
transcript section. -/
theorem C9_pdf_line_classification (now report_text transcript_text : String)
    (tid : Option Nat) (h : report_text ≠ "") :
    create_pdf_report now report_text transcript_text tid
      = pdf_header now tid
        ++ ([StoryElem.par "MEDICAL REPORT" PStyle.heading2,
             StoryElem.spacer 1 12]
            ++ (nonblank_lines report_text).flatMap
                (fun para => [claim_classify_line para, StoryElem.spacer 1 6]))
        ++ pdf_transcript_tail transcript_text := by
  simp only [create_pdf_report, pdf_header, pdf_transcript_tail,
    nonblank_lines, if_pos, h, ne_eq, not_false_iff, ite_true,
    flatMap_filter, claim_classify_line]
  simp [List.append_assoc]

theorem C9_pdf_line_classification_witness :
    create_pdf_report "2024-01-01 10:00:00" "## A\n- b\nc\n \n" "x" (some 7)
      = pdf_header "2024-01-01 10:00:00" (some 7)
        ++ ([StoryElem.par "MEDICAL REPORT" PStyle.heading2,
             StoryElem.spacer 1 12]
            ++ (nonblank_lines "## A\n- b\nc\n \n").flatMap
                (fun para => [claim_classify_line para, StoryElem.spacer 1 6]))
        ++ pdf_transcript_tail "x" :=
  C9_pdf_line_classification "2024-01-01 10:00:00" "## A\n- b\nc\n \n" "x"
    (some 7) (by decide)

/-- C10, counterexample: from the prior state `{counter: 0, transcriptions:
{"1": old}}` — a state the claim quantifies over — `save_transcription`
stores the new record under the key `"1"` and thereby replaces the existing
record, so append does not leave every prior record unchanged. -/
theorem C10_counterexample :
    dictGet "1"
        (load_transcription_counter
          (save_transcription "2024-01-02 10:00:00" "new words" "en-US"
            (some ⟨0,
              [("1", new_transcription "2024-01-01 10:00:00" "old words"
                  "en-US")],
              "2024-01-01 10:00:00"⟩)).1).2
      ≠ some (new_transcription "2024-01-01 10:00:00" "old words" "en-US") := by
  decide

/-- C10, amended: for every prior ledger state whose records do not already
contain the key `str(c+1)` — true of every state the code itself produces,
where all keys are at most the counter — `save_transcription` returns
`c + 1`, sets the counter to `c + 1`, and the persisted records are exactly
the prior records, unchanged and in order, plus the one new record appended
under `str(c+1)`. -/
theorem C10_append_frame (now t lang : String) (fs : Option LedgerDoc)
    (hfresh : dictGet (toString ((load_transcription_counter fs).1 + 1))
        (load_transcription_counter fs).2 = none) :
    (save_transcription now t lang fs).2
      = (load_transcription_counter fs).1 + 1 ∧
    (load_transcription_counter (save_transcription now t lang fs).1).1
      = (load_transcription_counter fs).1 + 1 ∧
    (load_transcription_counter (save_transcription now t lang fs).1).2
      = (load_transcription_counter fs).2
        ++ [(toString ((load_transcription_counter fs).1 + 1),
             new_transcription now t lang)] := by
  exact ⟨rfl, rfl, dictInsert_of_get_none _ _ _ hfresh⟩

/-- Concrete ledger document used by the C10 witness. -/
def docW : LedgerDoc :=
  ⟨2,
   [("1", new_transcription "2024-01-01 10:00:00" "hello" "en-US"),
    ("2", new_transcription "2024-01-01 10:05:00" "there" "en-US")],
   "2024-01-01 10:05:00"⟩

theorem C10_append_frame_witness :
    (save_transcription "2024-01-01 10:10:00" "hi again" "en-US"
        (some docW)).2 = (load_transcription_counter (some docW)).1 + 1 ∧
    (load_transcription_counter
        (save_transcription "2024-01-01 10:10:00" "hi again" "en-US"
          (some docW)).1).1
      = (load_transcription_counter (some docW)).1 + 1 ∧
    (load_transcription_counter
        (save_transcription "2024-01-01 10:10:00" "hi again" "en-US"
          (some docW)).1).2
      = (load_transcription_counter (some docW)).2
        ++ [(toString ((load_transcription_counter (some docW)).1 + 1),
             new_transcription "2024-01-01 10:10:00" "hi again" "en-US")] :=
  C10_append_frame "2024-01-01 10:10:00" "hi again" "en-US" (some docW)
    (by decide)

end DaEase
